import Mathlib

/-!
Verification development for the TFTP service supervisor in
`build_and_run.py` (class `QuantumXferBuilder`).

The embedding models the supervisor state (`tftp_process`, `tftp_port`,
`tftp_root`), the filesystem touched by `setup_tftp_root`, the OS spawn
interface used by the backend trial chain (the unix, windows and in-process
starter methods), the teardown logic of `stop_tftp_server`, and the UDP
probe `test_tftp`.  Effects (process spawn, socket traffic, the outcome of
`terminate`/`wait`) are passed in explicitly as oracle values, so every
function here is a pure, executable translation of the corresponding Python
method.
-/

namespace BuildAndRun

/-- Byte strings are modelled as lists of byte values (each below 256 for
the bytes actually produced here). -/
abbrev Bytes := List Nat

/-- ASCII encoding of a string, as done by Python byte literals such as
the byte-string form of test_file.txt. -/
def str2bytes (s : String) : Bytes := s.data.map Char.toNat

/-- The value stored in `self.tftp_process`.  The Python code stores either
`None` (modelled by `Option.none` around this type), a `subprocess.Popen`
handle (constructor `proc`, recording the pid and the launched command), or
the sentinel string `"python_thread"` (constructor `pythonThread`). -/
inductive TftpProcess where
  | proc (pid : Nat) (cmd : List String)
  | pythonThread
deriving DecidableEq, Repr

/-- The supervisor state of `QuantumXferBuilder` relevant to the TFTP
feature: `self.is_windows`, `self.tftp_process`, `self.tftp_port`
(default 69) and `self.tftp_root`. -/
structure Builder where
  is_windows : Bool
  tftp_process : Option TftpProcess
  tftp_port : Nat
  tftp_root : String
deriving DecidableEq, Repr

/-- A filesystem snapshot: which directories exist and the content of each
file path (`none` means the path holds no file). -/
structure FS where
  dirs : String → Bool
  files : String → Option String

/-- Path join as performed by the path-division operator on the TFTP
root. -/
def joinPath (d f : String) : String := d ++ "/" ++ f

/-- Body written to `test_file.txt` on first setup (line 181). -/
def test_file_content : String :=
  "QuantumXfer TFTP Test File\nThis file is used for testing TFTP transfers.\n"

/-- Body written to `README.txt` on first setup (line 185). -/
def readme_content : String :=
  "TFTP Root Directory\n\nThis directory contains files for TFTP testing.\n"

/-- The `mkdir(exist_ok=True)` call of line 176: the directory is recorded
as existing, nothing else changes. -/
def mkdir_exist_ok (d : String) (fs : FS) : FS :=
  { fs with dirs := fun x => if x = d then true else fs.dirs x }

/-- The write-if-absent pattern of lines 180-181 and 184-185: if the path
already holds a file it is left untouched, otherwise the given content is
written there. -/
def write_if_absent (path content : String) (fs : FS) : FS :=
  if (fs.files path).isSome then fs
  else { fs with files := fun p => if p = path then some content else fs.files p }

/-- Translation of `setup_tftp_root` (lines 174-188): `mkdir(exist_ok=True)`
on the root, then write `test_file.txt` and then `README.txt`, each only if
it does not already exist. -/
def setup_tftp_root (b : Builder) (fs : FS) : FS :=
  write_if_absent (joinPath b.tftp_root "README.txt") readme_content
    (write_if_absent (joinPath b.tftp_root "test_file.txt") test_file_content
      (mkdir_exist_ok b.tftp_root fs))

/-- Outcome of one `subprocess.Popen` attempt: success with a process id,
`FileNotFoundError` (executable not found), or any other exception. -/
inductive SpawnResult where
  | ok (pid : Nat)
  | notFound
  | otherError
deriving DecidableEq, Repr

/-- An exception escaping one of the underscore-prefixed starter methods:
`ImportError` from the in-process starter, or a spawn failure other than
`FileNotFoundError`. -/
inductive StartErr where
  | importError
  | spawnError
deriving DecidableEq, Repr

/-- The OS collaborator: what `subprocess.Popen` does for a given command,
and whether the tftpy import succeeds. -/
structure OS where
  spawn : List String → SpawnResult
  tftpyAvailable : Bool

/-- The `dnsmasq` candidate command (line 242). -/
def dnsmasqCmd (root : String) (port : Nat) : List String :=
  ["dnsmasq", "--tftp-root", root, "--tftp-port", toString port]

/-- The `atftpd` candidate command (line 253). -/
def atftpdCmd (root : String) (port : Nat) : List String :=
  ["atftpd", "--bind-address", "127.0.0.1", "--port", toString port, root]

/-- The Windows candidate command (line 225). -/
def pythonTftpyCmd : List String := ["python", "-m", "tftpy"]

/-- Translation of the in-process starter (lines 264-279): raise
`ImportError` if tftpy is unavailable, otherwise start a daemon thread and
set `self.tftp_process` to the string sentinel. -/
def start_python_tftp_server (os : OS) (b : Builder) : Except StartErr Builder :=
  if os.tftpyAvailable then
    Except.ok { b with tftp_process := some TftpProcess.pythonThread }
  else Except.error StartErr.importError

/-- Translation of the unix starter (lines 237-262): try `dnsmasq`, on
`FileNotFoundError` try `atftpd`, on `FileNotFoundError` fall back to the
in-process Python server; any other spawn exception propagates. -/
def start_tftp_unix (os : OS) (b : Builder) : Except StartErr Builder :=
  match os.spawn (dnsmasqCmd b.tftp_root b.tftp_port) with
  | SpawnResult.ok pid =>
      Except.ok { b with tftp_process := some (TftpProcess.proc pid (dnsmasqCmd b.tftp_root b.tftp_port)) }
  | SpawnResult.otherError => Except.error StartErr.spawnError
  | SpawnResult.notFound =>
    match os.spawn (atftpdCmd b.tftp_root b.tftp_port) with
    | SpawnResult.ok pid =>
        Except.ok { b with tftp_process := some (TftpProcess.proc pid (atftpdCmd b.tftp_root b.tftp_port)) }
    | SpawnResult.otherError => Except.error StartErr.spawnError
    | SpawnResult.notFound => start_python_tftp_server os b

/-- Translation of the windows starter (lines 220-235): try
`python -m tftpy` as an external process, on `FileNotFoundError` fall back
to the in-process server. -/
def start_tftp_windows (os : OS) (b : Builder) : Except StartErr Builder :=
  match os.spawn pythonTftpyCmd with
  | SpawnResult.ok pid =>
      Except.ok { b with tftp_process := some (TftpProcess.proc pid pythonTftpyCmd) }
  | SpawnResult.otherError => Except.error StartErr.spawnError
  | SpawnResult.notFound => start_python_tftp_server os b

/-- Translation of `start_tftp_server` (lines 190-218).  If a handle is
already live it reports "already running" and returns `True` immediately;
otherwise it runs `setup_tftp_root`, delegates to the platform chain, and
returns `True` on success or swallows the exception and returns `False`.
The result carries the returned boolean, the updated supervisor state and
the updated filesystem. -/
def start_tftp_server (os : OS) (b : Builder) (fs : FS) : Bool × Builder × FS :=
  if b.tftp_process.isSome then (true, b, fs)
  else
    let fs2 := setup_tftp_root b fs
    match (if b.is_windows then start_tftp_windows os b else start_tftp_unix os b) with
    | Except.ok b2 => (true, b2, fs2)
    | Except.error _ => (false, b, fs2)

/-- What the OS does while `stop_tftp_server` runs `terminate()` and
`wait(timeout=5)` on an external process: the process exits within the
grace period, the grace period expires (`TimeoutExpired` from `wait`),
`terminate()` itself raises, or `wait` raises some other exception. -/
inductive StopEvent where
  | exitedWithinGrace
  | gracePeriodExpired
  | terminateRaised
  | waitRaised
deriving DecidableEq, Repr

/-- Audit trail of the teardown calls actually issued by
`stop_tftp_server`: whether `terminate()` was called, the timeout passed to
`wait` when `wait` was called, and whether `kill()` was called. -/
structure StopActions where
  terminate_called : Bool
  wait_timeout : Option Nat
  kill_called : Bool
deriving DecidableEq, Repr

/-- The empty audit trail: no teardown call issued. -/
def noStopActions : StopActions :=
  { terminate_called := false, wait_timeout := none, kill_called := false }

/-- Translation of `stop_tftp_server` (lines 281-297).  `None` handle:
return at once.  String-sentinel handle: print a note and return, leaving
the handle in place.  Process handle: `terminate()`, `wait(timeout=5)`
(skipped when `terminate` raises), any exception is caught and printed, and
the `finally` block clears the handle.  The function is total in `ev`: no
`StopEvent` makes it propagate an error, mirroring the blanket exception
handler at line 294. -/
def stop_tftp_server (ev : StopEvent) (b : Builder) : Builder × StopActions :=
  match b.tftp_process with
  | none => (b, noStopActions)
  | some TftpProcess.pythonThread => (b, noStopActions)
  | some (TftpProcess.proc _ _) =>
      ({ b with tftp_process := none },
       { terminate_called := true,
         wait_timeout := if ev = StopEvent.terminateRaised then none else some 5,
         kill_called := false })

/-- Outcome of the single `recvfrom` performed by the probe: a reply
datagram with its source address, `socket.timeout`, or any other
socket-level exception. -/
inductive RecvOutcome where
  | reply (data : Bytes) (addr : String × Nat)
  | timeout
  | sockError
deriving DecidableEq, Repr

/-- Reason a probe reported failure, read off from which branch of
`test_tftp` returned `False`. -/
inductive FailureReason where
  | timeout
  | malformedResponse
  | socketError
deriving DecidableEq, Repr

/-- Result of one probe invocation.  `success` is the boolean `test_tftp`
returns; `responderAddress` is the reply source address printed on the
success path; `failureReason` records which failure branch ran. -/
structure ProbeResult where
  success : Bool
  responderAddress : Option (String × Nat)
  failureReason : Option FailureReason
deriving DecidableEq, Repr

/-- The network collaborator: the outcome of sending a given payload to a
given destination address and waiting with a given receive timeout. -/
abbrev Net := (String × Nat) → Bytes → Nat → RecvOutcome

/-- The read-request datagram built at line 312: the two opcode bytes 00 01,
then the ASCII name test_file.txt followed by a NUL byte, then the ASCII
mode string octet followed by a NUL byte. -/
def request : Bytes :=
  [0x00, 0x01] ++ (str2bytes "test_file.txt" ++ [0x00]) ++ (str2bytes "octet" ++ [0x00])

/-- Translation of `test_tftp` (lines 299-330): send `request` to
`("127.0.0.1", self.tftp_port)` with a 2-second receive timeout; on a reply
whose first two bytes are 00 03 return `True` with the source address, on
any other reply return `False` (unexpected response), on `socket.timeout`
return `False`, on any other exception return `False`. -/
def test_tftp (port : Nat) (net : Net) : ProbeResult :=
  match net ("127.0.0.1", port) request 2 with
  | RecvOutcome.reply data addr =>
      if data.take 2 = [0x00, 0x03] then
        { success := true, responderAddress := some addr, failureReason := none }
      else
        { success := false, responderAddress := none,
          failureReason := some FailureReason.malformedResponse }
  | RecvOutcome.timeout =>
      { success := false, responderAddress := none,
        failureReason := some FailureReason.timeout }
  | RecvOutcome.sockError =>
      { success := false, responderAddress := none,
        failureReason := some FailureReason.socketError }

/-- Classification of a single receive outcome, shared by every branch of
the probe: the same case analysis as `test_tftp` performs on the result of
its one `recvfrom`. -/
def handle_first_reply : RecvOutcome → ProbeResult
  | RecvOutcome.reply data addr =>
      if data.take 2 = [0x00, 0x03] then
        { success := true, responderAddress := some addr, failureReason := none }
      else
        { success := false, responderAddress := none,
          failureReason := some FailureReason.malformedResponse }
  | RecvOutcome.timeout =>
      { success := false, responderAddress := none,
        failureReason := some FailureReason.timeout }
  | RecvOutcome.sockError =>
      { success := false, responderAddress := none,
        failureReason := some FailureReason.socketError }

/-- A supervisor whose handle is a live external process (an earlier
successful `dnsmasq` spawn). -/
def bExt : Builder :=
  { is_windows := false,
    tftp_process := some (TftpProcess.proc 1234 (dnsmasqCmd "tftp_root" 69)),
    tftp_port := 69, tftp_root := "tftp_root" }

/-- A supervisor whose handle is the in-process daemon-thread sentinel. -/
def bThr : Builder :=
  { is_windows := false, tftp_process := some TftpProcess.pythonThread,
    tftp_port := 69, tftp_root := "tftp_root" }

/-- A supervisor with no live handle. -/
def bIdle : Builder :=
  { is_windows := false, tftp_process := none,
    tftp_port := 69, tftp_root := "tftp_root" }

/-- An OS on which every spawn attempt raises `FileNotFoundError` and the
tftpy import fails. -/
def osAllMissing : OS :=
  { spawn := fun _ => SpawnResult.notFound, tftpyAvailable := false }

/-- An OS on which every spawn attempt raises `FileNotFoundError` but the
tftpy import succeeds. -/
def osOnlyTftpy : OS :=
  { spawn := fun _ => SpawnResult.notFound, tftpyAvailable := true }

/-- An empty filesystem. -/
def fsEmpty : FS := { dirs := fun _ => false, files := fun _ => none }

/-- A network on which every receive times out. -/
def netSilent : Net := fun _ _ _ => RecvOutcome.timeout

/-- A network answering every datagram with a TFTP error packet
(opcode 00 05). -/
def netErrorPkt : Net :=
  fun _ _ _ => RecvOutcome.reply [0x00, 0x05, 0x00, 0x01] ("127.0.0.1", 40000)

/-- A network on which every send or receive raises a socket error. -/
def netBroken : Net := fun _ _ _ => RecvOutcome.sockError

lemma mkdir_exist_ok_files (d : String) (fs : FS) :
    (mkdir_exist_ok d fs).files = fs.files := rfl

lemma mkdir_exist_ok_dirs (d : String) (fs : FS) (x : String) :
    (mkdir_exist_ok d fs).dirs x = (if x = d then true else fs.dirs x) := rfl

lemma write_if_absent_dirs (path content : String) (fs : FS) :
    (write_if_absent path content fs).dirs = fs.dirs := by
  unfold write_if_absent
  split <;> rfl

lemma write_if_absent_files (path content : String) (fs : FS) (p : String) :
    (write_if_absent path content fs).files p =
      (if p = path then some ((fs.files path).getD content) else fs.files p) := by
  unfold write_if_absent
  rcases hf : fs.files path with _ | c
  · simp [hf]
  · simp [hf]
    by_cases hp : p = path
    · subst hp
      simp [hf]
    · simp [hp]

lemma sample_ne_readme (r : String) :
    joinPath r "test_file.txt" ≠ joinPath r "README.txt" := by
  intro h
  have h2 := congrArg String.length h
  simp [joinPath, String.length_append] at h2
  exact absurd h2 (by decide)

/-- C1 counterexample: the claim says that when the process has not exited
within the 5 time-unit grace period, `stop()` escalates to a forced kill.
On the concrete live external-process handle `bExt`, with the grace period
expiring (`wait(timeout=5)` raising `TimeoutExpired`), `stop_tftp_server`
issues no `kill()` call: the source has no kill path at all. -/
theorem c1_no_forced_kill_counterexample :
    ¬ ((stop_tftp_server StopEvent.gracePeriodExpired bExt).2.kill_called = true) := by
  decide

/-- C1 (amended): for every live `ExternalProcess` handle, `stop()` calls
`terminate()`, then `wait` with the fixed 5 time-unit grace period (unless
`terminate` itself raised), never calls `kill()`, and — whatever the
`StopEvent`, including the grace period expiring or an exception, which the
handler swallows — returns normally with the handle cleared to `None`. -/
theorem c1_stop_external_clears_without_kill (ev : StopEvent) (b : Builder)
    (pid : Nat) (cmd : List String)
    (h : b.tftp_process = some (TftpProcess.proc pid cmd)) :
    (stop_tftp_server ev b).1.tftp_process = none ∧
    (stop_tftp_server ev b).2.terminate_called = true ∧
    (stop_tftp_server ev b).2.wait_timeout =
      (if ev = StopEvent.terminateRaised then none else some 5) ∧
    (stop_tftp_server ev b).2.kill_called = false := by
  simp [stop_tftp_server, h]

/-- Witness for C1 at the concrete handle `bExt` with the grace period
expiring. -/
theorem c1_stop_external_clears_without_kill_witness :
    bExt.tftp_process = some (TftpProcess.proc 1234 (dnsmasqCmd "tftp_root" 69)) ∧
    ((stop_tftp_server StopEvent.gracePeriodExpired bExt).1.tftp_process = none ∧
     (stop_tftp_server StopEvent.gracePeriodExpired bExt).2.terminate_called = true ∧
     (stop_tftp_server StopEvent.gracePeriodExpired bExt).2.wait_timeout =
       (if StopEvent.gracePeriodExpired = StopEvent.terminateRaised then none else some 5) ∧
     (stop_tftp_server StopEvent.gracePeriodExpired bExt).2.kill_called = false) :=
  ⟨rfl, c1_stop_external_clears_without_kill StopEvent.gracePeriodExpired bExt 1234
    (dnsmasqCmd "tftp_root" 69) rfl⟩

/-- C2 counterexample: the claim says that after `stop()` the handle is
`None` for both variants.  On the concrete in-process sentinel handle
`bThr`, `stop_tftp_server` returns with the handle still holding the
sentinel, not `None`. -/
theorem c2_thread_handle_not_cleared_counterexample :
    (stop_tftp_server StopEvent.exitedWithinGrace bThr).1.tftp_process =
      some TftpProcess.pythonThread ∧
    ¬ ((stop_tftp_server StopEvent.exitedWithinGrace bThr).1.tftp_process = none) := by
  decide

/-- C2 (amended): after `stop()` returns, the handle is `None` unless it
held the in-process sentinel; on the sentinel, `stop()` returns without
blocking but leaves the handle in place and issues no teardown call at all
(no cancellation token exists in the source, nothing is signalled). -/
theorem c2_stop_clears_unless_thread (ev : StopEvent) (b : Builder) :
    (stop_tftp_server ev b).1.tftp_process =
      (if b.tftp_process = some TftpProcess.pythonThread
       then some TftpProcess.pythonThread else none) ∧
    stop_tftp_server ev { b with tftp_process := some TftpProcess.pythonThread } =
      ({ b with tftp_process := some TftpProcess.pythonThread }, noStopActions) := by
  constructor
  · rcases hb : b.tftp_process with _ | p
    · simp [stop_tftp_server, hb]
    · cases p <;> simp [stop_tftp_server, hb]
  · simp [stop_tftp_server]

/-- C3: `start()` is idempotent — on a supervisor whose handle is live,
`start_tftp_server` reports "already running" and returns `True` with the
supervisor state and the filesystem both unchanged; since the result is the
same for every `OS` oracle, no spawn is attempted and no directory setup is
performed, and the single live handle is preserved. -/
theorem c3_start_idempotent_when_running (os : OS) (b : Builder) (fs : FS)
    (h : b.tftp_process.isSome = true) :
    start_tftp_server os b fs = (true, b, fs) := by
  simp [start_tftp_server, h]

/-- Witness for C3 at the concrete live supervisor `bThr` with every
external candidate missing. -/
theorem c3_start_idempotent_when_running_witness :
    bThr.tftp_process.isSome = true ∧
    start_tftp_server osAllMissing bThr fsEmpty = (true, bThr, fsEmpty) :=
  ⟨rfl, c3_start_idempotent_when_running osAllMissing bThr fsEmpty rfl⟩

/-- C9: `stop()` on a `None` handle is a no-op — it returns at once with
the supervisor unchanged and no teardown call issued, for every
`StopEvent`. -/
theorem c9_stop_noop_when_none (ev : StopEvent) (b : Builder)
    (h : b.tftp_process = none) :
    stop_tftp_server ev b = (b, noStopActions) := by
  simp [stop_tftp_server, h]

/-- Witness for C9 at the concrete idle supervisor `bIdle`. -/
theorem c9_stop_noop_when_none_witness :
    bIdle.tftp_process = none ∧
    stop_tftp_server StopEvent.exitedWithinGrace bIdle = (bIdle, noStopActions) :=
  ⟨rfl, c9_stop_noop_when_none StopEvent.exitedWithinGrace bIdle rfl⟩

/-- C4: on a unix supervisor with no live handle, when the first candidate
(`dnsmasq`) misses with "executable not found", the chain proceeds to the
next candidate (`atftpd`): a successful spawn there yields a `True` start
with an external-process handle; a second miss falls back to the in-process
server, which succeeds exactly when the tftpy import succeeds and otherwise
leaves `start()` returning `False` (not a success) with the handle still
`None`. -/
theorem c4_trial_chain_fallback (os : OS) (b : Builder) (fs : FS)
    (hnone : b.tftp_process = none) (hwin : b.is_windows = false)
    (hdns : os.spawn (dnsmasqCmd b.tftp_root b.tftp_port) = SpawnResult.notFound) :
    start_tftp_server os b fs =
      (match os.spawn (atftpdCmd b.tftp_root b.tftp_port) with
       | SpawnResult.ok pid =>
           (true,
            { b with tftp_process := some (TftpProcess.proc pid (atftpdCmd b.tftp_root b.tftp_port)) },
            setup_tftp_root b fs)
       | SpawnResult.notFound =>
           if os.tftpyAvailable then
             (true, { b with tftp_process := some TftpProcess.pythonThread },
              setup_tftp_root b fs)
           else (false, b, setup_tftp_root b fs)
       | SpawnResult.otherError => (false, b, setup_tftp_root b fs)) := by
  simp only [start_tftp_server, hnone, hwin, Option.isSome_none, Bool.false_eq_true,
    if_false, if_neg, start_tftp_unix, hdns, start_python_tftp_server, Bool.if_false_left]
  cases h2 : os.spawn (atftpdCmd b.tftp_root b.tftp_port) with
  | ok pid => simp
  | notFound => cases h3 : os.tftpyAvailable <;> simp
  | otherError => simp

/-- Witness for C4 at the concrete idle supervisor `bIdle` on an OS where
every candidate misses and the tftpy import fails, so the start reports
failure. -/
theorem c4_trial_chain_fallback_witness :
    bIdle.tftp_process = none ∧
    bIdle.is_windows = false ∧
    osAllMissing.spawn (dnsmasqCmd bIdle.tftp_root bIdle.tftp_port) = SpawnResult.notFound ∧
    start_tftp_server osAllMissing bIdle fsEmpty =
      (match osAllMissing.spawn (atftpdCmd bIdle.tftp_root bIdle.tftp_port) with
       | SpawnResult.ok pid =>
           (true,
            { bIdle with
                tftp_process := some (TftpProcess.proc pid (atftpdCmd bIdle.tftp_root bIdle.tftp_port)) },
            setup_tftp_root bIdle fsEmpty)
       | SpawnResult.notFound =>
           if osAllMissing.tftpyAvailable then
             (true, { bIdle with tftp_process := some TftpProcess.pythonThread },
              setup_tftp_root bIdle fsEmpty)
           else (false, bIdle, setup_tftp_root bIdle fsEmpty)
       | SpawnResult.otherError => (false, bIdle, setup_tftp_root bIdle fsEmpty)) :=
  ⟨rfl, rfl, rfl, c4_trial_chain_fallback osAllMissing bIdle fsEmpty rfl rfl rfl⟩

/-- C5: when a reply datagram arrives, the probe result is the success
record carrying the source address of the reply exactly when the first two
bytes of the reply are the big-endian data opcode 00 03, and the
malformed-response failure record otherwise; in particular `success = true`
holds if and only if the leading opcode is 00 03. -/
theorem c5_reply_opcode_decides_success (port : Nat) (net : Net)
    (data : Bytes) (addr : String × Nat)
    (h : net ("127.0.0.1", port) request 2 = RecvOutcome.reply data addr) :
    test_tftp port net =
      (if data.take 2 = [0x00, 0x03] then
        { success := true, responderAddress := some addr, failureReason := none }
      else
        { success := false, responderAddress := none,
          failureReason := some FailureReason.malformedResponse }) ∧
    ((test_tftp port net).success = true ↔ data.take 2 = [0x00, 0x03]) := by
  constructor
  · simp [test_tftp, h]
  · simp only [test_tftp, h]
    by_cases hd : data.take 2 = [0x00, 0x03]
    · simp [hd]
    · simp [hd]

/-- Witness for C5 at the concrete network `netErrorPkt`, which answers
with a TFTP error packet (opcode 00 05): the probe reports failure, never
success. -/
theorem c5_reply_opcode_decides_success_witness :
    netErrorPkt ("127.0.0.1", 69) request 2 =
      RecvOutcome.reply [0x00, 0x05, 0x00, 0x01] ("127.0.0.1", 40000) ∧
    (test_tftp 69 netErrorPkt =
      (if ([0x00, 0x05, 0x00, 0x01] : Bytes).take 2 = [0x00, 0x03] then
        { success := true, responderAddress := some ("127.0.0.1", 40000), failureReason := none }
      else
        { success := false, responderAddress := none,
          failureReason := some FailureReason.malformedResponse }) ∧
     ((test_tftp 69 netErrorPkt).success = true ↔
        ([0x00, 0x05, 0x00, 0x01] : Bytes).take 2 = [0x00, 0x03])) :=
  ⟨rfl, c5_reply_opcode_decides_success 69 netErrorPkt [0x00, 0x05, 0x00, 0x01]
    ("127.0.0.1", 40000) rfl⟩

/-- C6: when no reply arrives within the timeout the probe returns the
timeout failure record, and when the send or receive raises a socket-level
exception it returns the socket-error failure record; both are returned as
values of the total function `test_tftp`, never propagated. -/
theorem c6_timeout_and_socket_error_as_values (port : Nat) (net1 net2 : Net)
    (h1 : net1 ("127.0.0.1", port) request 2 = RecvOutcome.timeout)
    (h2 : net2 ("127.0.0.1", port) request 2 = RecvOutcome.sockError) :
    test_tftp port net1 =
      { success := false, responderAddress := none,
        failureReason := some FailureReason.timeout } ∧
    test_tftp port net2 =
      { success := false, responderAddress := none,
        failureReason := some FailureReason.socketError } := by
  constructor
  · simp [test_tftp, h1]
  · simp [test_tftp, h2]

/-- Witness for C6 at the concrete silent network and the concrete broken
network. -/
theorem c6_timeout_and_socket_error_as_values_witness :
    netSilent ("127.0.0.1", 69) request 2 = RecvOutcome.timeout ∧
    netBroken ("127.0.0.1", 69) request 2 = RecvOutcome.sockError ∧
    (test_tftp 69 netSilent =
      { success := false, responderAddress := none,
        failureReason := some FailureReason.timeout } ∧
     test_tftp 69 netBroken =
      { success := false, responderAddress := none,
        failureReason := some FailureReason.socketError }) :=
  ⟨rfl, rfl, c6_timeout_and_socket_error_as_values 69 netSilent netBroken rfl rfl⟩

/-- C7: the read-request datagram built by the probe is exactly the
big-endian opcode 00 01, the ASCII filename terminated by a NUL byte, and
the ASCII string octet terminated by a NUL byte, with nothing appended
after the final NUL — spelled out both structurally and as the literal
22-byte wire image. -/
theorem c7_rrq_wire_format :
    request = [0x00, 0x01] ++ str2bytes "test_file.txt" ++ [0x00] ++
      str2bytes "octet" ++ [0x00] ∧
    request = [0x00, 0x01,
               0x74, 0x65, 0x73, 0x74, 0x5f, 0x66, 0x69, 0x6c, 0x65, 0x2e, 0x74, 0x78, 0x74, 0x00,
               0x6f, 0x63, 0x74, 0x65, 0x74, 0x00] := by
  constructor
  · decide
  · decide

/-- C8: `setup_tftp_root` creates the root directory and seeds exactly the
two sample files.  For every path: the sample file and the readme end up
present, holding their previous content when they already existed and the
fixed sample bodies otherwise, and every other file path is untouched; for
every directory: only the root directory is added. -/
theorem c8_setup_root_files_frame (b : Builder) (fs : FS) (p d : String) :
    (setup_tftp_root b fs).dirs d = (if d = b.tftp_root then true else fs.dirs d) ∧
    (setup_tftp_root b fs).files p =
      (if p = joinPath b.tftp_root "test_file.txt" then
        some ((fs.files p).getD test_file_content)
       else if p = joinPath b.tftp_root "README.txt" then
        some ((fs.files p).getD readme_content)
       else fs.files p) := by
  have hne := sample_ne_readme b.tftp_root
  constructor
  · simp [setup_tftp_root, write_if_absent_dirs, mkdir_exist_ok_dirs]
  · simp only [setup_tftp_root, write_if_absent_files, mkdir_exist_ok_files]
    by_cases hpS : p = joinPath b.tftp_root "test_file.txt"
    · subst hpS
      simp [hne]
    · by_cases hpR : p = joinPath b.tftp_root "README.txt"
      · subst hpR
        simp [hpS, Ne.symm hne]
      · simp [hpS, hpR]

/-- C10: the probe takes no caller-supplied parameters — its result is
exactly the classification of the single datagram the network returns for
destination address `("127.0.0.1", port)` (the supervisor port), payload
`request` (the fixed read request naming test_file.txt), and the fixed
2-second receive timeout; no caller-chosen filename, address or timeout
enters the computation. -/
theorem c10_probe_fixed_parameters (port : Nat) (net : Net) :
    test_tftp port net = handle_first_reply (net ("127.0.0.1", port) request 2) := by
  unfold test_tftp handle_first_reply
  rfl

end BuildAndRun
